import Mathlib

/-!
Verification of the `summer` HTTP dispatcher (`app.go`).

The development shallowly embeds the dispatch path of `(*app).ServeHTTP`,
the readiness report builder, the liveness cascade rule, the channel-based
admission gate built in `New`, and the deferred context lifecycle installed
by `HandleFunc`.
-/

/-- The `options` record consumed by `ServeHTTP` and `New`
(`concurrency`, `readinessCascade`, and the three reserved paths). -/
structure Options where
  concurrency : Int
  readinessCascade : Int
  readinessPath : String
  livenessPath : String
  metricsPath : String
deriving DecidableEq

/-- Wrap-around arithmetic of a signed 64-bit integer, as performed by
`atomic.AddInt64` on the `readinessFailed` field. -/
def wrap64 (x : Int) : Int :=
  (x + 2 ^ 63) % 2 ^ 64 - 2 ^ 63

/-- The five destinations a request can be resolved to by `ServeHTTP`. -/
inductive HandledBy where
  | readiness
  | liveness
  | metrics
  | profiling
  | application
deriving DecidableEq

/-- A plain-text HTTP response: body and status code.
Modelled from the spec: `respondInternal` (defined outside the dispatch file)
writes the given plain-text body and the given status code to the response. -/
structure Response where
  body : String
  status : Nat
deriving DecidableEq

/-- Modelled from the spec: `respondInternal(rw, body, status)` produces a
response carrying exactly the body and status it is handed. -/
def respondInternal (body : String) (status : Nat) : Response :=
  ⟨body, status⟩

/-- One step of the readiness report builder: the body of the callback that
`ServeHTTP` passes to `Registry.Check`.  The accumulator is the pair of the
`strings.Builder` content `sb` and the `failed` flag; a check is the pair of
its name and its reported error (`none` for a nil error). -/
def reportStep (acc : String × Bool) (c : String × Option String) : String × Bool :=
  let sb := if acc.1.length > 0 then acc.1 ++ "\n" else acc.1
  let sb := sb ++ c.1
  match c.2 with
  | none => (sb ++ ": OK", acc.2)
  | some e => (sb ++ ": " ++ e, true)

/-- The readiness report of `ServeHTTP`: fold the report callback over the
sequence of `(name, error)` pairs that `Registry.Check` reports, then
substitute the literal `"OK"` when the builder is still empty.  Returns the
body together with the `failed` flag. -/
def checkReport (checks : List (String × Option String)) : String × Bool :=
  let r := checks.foldl reportStep ("", false)
  (if r.1.length = 0 then "OK" else r.1, r.2)

/-- The routing decision of `ServeHTTP`: the if/else-if chain on the request
path, in source order (readiness, liveness, metrics, the `"/debug/"` prefix,
then the application mux). -/
def dispatch (o : Options) (p : String) : HandledBy :=
  if p = o.readinessPath then HandledBy.readiness
  else if p = o.livenessPath then HandledBy.liveness
  else if p = o.metricsPath then HandledBy.metrics
  else if p.startsWith "/debug/" then HandledBy.profiling
  else HandledBy.application

/-- Result of one `ServeHTTP` call: the destination it resolved to, the
inline response when the branch writes one (`none` for the delegating
branches), the new value of `readinessFailed`, and whether `Registry.Check`
was invoked. -/
structure ServeResult where
  handledBy : HandledBy
  response : Option Response
  readinessFailed : Int
  checkInvoked : Bool
deriving DecidableEq

/-- Shallow embedding of `(*app).ServeHTTP`, up to the point where it either
responds inline or delegates: the readiness branch runs the checks, builds
the report, and bumps or resets `readinessFailed`; the liveness branch is a
pure read of `readinessFailed` against `readinessCascade`; metrics, the
`"/debug/"` prefix, and the application fall-through delegate. -/
def serveHTTP (o : Options) (checks : List (String × Option String)) (p : String)
    (st : Int) : ServeResult :=
  if p = o.readinessPath then
    if (checkReport checks).2 then
      ⟨HandledBy.readiness, some (respondInternal (checkReport checks).1 500),
        wrap64 (st + 1), true⟩
    else
      ⟨HandledBy.readiness, some (respondInternal (checkReport checks).1 200), 0, true⟩
  else if p = o.livenessPath then
    if o.readinessCascade > 0 ∧ st > o.readinessCascade then
      ⟨HandledBy.liveness, some (respondInternal "CASCADED" 500), st, false⟩
    else
      ⟨HandledBy.liveness, some (respondInternal "OK" 200), st, false⟩
  else if p = o.metricsPath then ⟨HandledBy.metrics, none, st, false⟩
  else if p.startsWith "/debug/" then ⟨HandledBy.profiling, none, st, false⟩
  else ⟨HandledBy.application, none, st, false⟩

/-- One line of the readiness report, as the spec describes it:
`"<name>: OK"` for a nil error, `"<name>: <error>"` otherwise. -/
def checkLine (c : String × Option String) : String :=
  match c.2 with
  | none => c.1 ++ ": OK"
  | some e => c.1 ++ ": " ++ e

/-- Iterating the readiness evaluation: the value of `readinessFailed` after
`n` consecutive requests to the readiness path, starting from `st`. -/
def iterReadiness (o : Options) (checks : List (String × Option String)) :
    Int → Nat → Int
  | st, 0 => st
  | st, n + 1 =>
      iterReadiness o checks ((serveHTTP o checks o.readinessPath st).readinessFailed) n

/-- Observable events of an application-route dispatch: the admission-gate
token operations of `ServeHTTP` and the context-lifecycle steps of the
handler that `HandleFunc` registers. -/
inductive Ev where
  | acquirePermit
  | createContext
  | injectDeps
  | invokeHandler
  | performFinalize
  | releasePermit
deriving DecidableEq

/-- A straight-line program with Go-style `defer`: emit an event, emit an
event and then unwind (a panicking call), sequence two programs, or run a
program with an event deferred to run on every exit of its scope. -/
inductive Prog where
  | emit : Ev → Prog
  | unwindAfter : Ev → Prog
  | seq : Prog → Prog → Prog
  | withDefer : Ev → Prog → Prog

/-- Run an `Prog`: the list of events that occur, in order, and whether the
program unwound abnormally.  `seq` stops at an unwind; `withDefer` appends
its deferred event whether or not the body unwound, and propagates the
unwind. -/
def runProg : Prog → List Ev × Bool
  | Prog.emit e => ([e], false)
  | Prog.unwindAfter e => ([e], true)
  | Prog.seq a b =>
      let ra := runProg a
      if ra.2 then ra
      else
        let rb := runProg b
        (ra.1 ++ rb.1, rb.2)
  | Prog.withDefer d a =>
      let ra := runProg a
      (ra.1 ++ [d], ra.2)

/-- The handler that `HandleFunc` wraps around an application route:
construct the context via the factory, defer `c.Perform()`, inject
dependencies, invoke the handler (which unwinds when `u` is true). -/
def handlerBody (u : Bool) : Prog :=
  Prog.seq (Prog.emit Ev.createContext)
    (Prog.withDefer Ev.performFinalize
      (Prog.seq (Prog.emit Ev.injectDeps)
        (if u then Prog.unwindAfter Ev.invokeHandler else Prog.emit Ev.invokeHandler)))

/-- The application fall-through of `ServeHTTP`: when the gate channel is
non-nil, take a token and defer putting it back, then run the wrapped
handler; when the gate is disabled, run the handler directly. -/
def serveApp (gateEnabled u : Bool) : Prog :=
  if gateEnabled then
    Prog.seq (Prog.emit Ev.acquirePermit)
      (Prog.withDefer Ev.releasePermit (handlerBody u))
  else handlerBody u

/-- The event trace of one application-route dispatch. -/
def appTrace (gateEnabled u : Bool) : List Ev :=
  (runProg (serveApp gateEnabled u)).1

/-- The event trace of one full `ServeHTTP` call: the reserved branches
return before the concurrency-control block, so only the application
fall-through produces gate or lifecycle events. -/
def serveTrace (o : Options) (gateEnabled : Bool) (p : String) (u : Bool) : List Ev :=
  if dispatch o p = HandledBy.application then appTrace gateEnabled u else []

/-- The admission gate built by `New`: when `concurrency > 0` the channel is
created and filled with exactly `concurrency` tokens (modelled as the count
of buffered tokens); otherwise no channel is created (`cc` stays nil). -/
def newGate (concurrency : Int) : Option Nat :=
  if concurrency > 0 then some concurrency.toNat else none

/-- Effect of one event on the gate state `(available, held)`: taking a
token moves it from available to held, putting it back moves it back;
lifecycle events leave the gate alone. -/
def gateStep (g : Nat × Nat) : Ev → Nat × Nat
  | Ev.acquirePermit => (g.1 - 1, g.2 + 1)
  | Ev.releasePermit => (g.1 + 1, g.2 - 1)
  | _ => g

/-- Options used in concrete scenarios: distinct reserved paths,
`readinessCascade = 2`. -/
def sampleOpts : Options :=
  ⟨8, 2, "/readiness", "/liveness", "/metrics"⟩

/-- Options with the readiness and liveness paths configured identically. -/
def collideOpts : Options :=
  ⟨8, 5, "/healthz", "/healthz", "/metrics"⟩

/-- A single failing check, used in cascade scenarios. -/
def failChecks : List (String × Option String) :=
  [("db", some "down")]

/-- One step of the report builder on a non-empty builder appends a newline
and then the line of the check. -/
lemma reportStep_of_pos (sb : String) (f : Bool) (c : String × Option String)
    (h : 0 < sb.length) :
    reportStep (sb, f) c = (sb ++ ("\n" ++ checkLine c), f || c.2.isSome) := by
  obtain ⟨name, err⟩ := c
  cases err <;> simp [reportStep, checkLine, h, String.append_assoc]

/-- One step of the report builder on the empty builder writes exactly the
line of the check. -/
lemma reportStep_of_empty (f : Bool) (c : String × Option String) :
    reportStep ("", f) c = (checkLine c, f || c.2.isSome) := by
  obtain ⟨name, err⟩ := c
  cases err <;> simp [reportStep, checkLine]

/-- Every report line is non-empty (it contains at least the colon-space). -/
lemma checkLine_pos (c : String × Option String) : 0 < (checkLine c).length := by
  obtain ⟨name, err⟩ := c
  have h4 : (": OK").length = 4 := rfl
  have h2 : (": ").length = 2 := rfl
  cases err <;> simp [checkLine, String.length_append, h4, h2]

/-- The failed flag of the fold is the disjunction of the incoming flag and
the presence of a failing check. -/
lemma foldl_reportStep_snd (l : List (String × Option String)) (acc : String × Bool) :
    (l.foldl reportStep acc).2 = (acc.2 || l.any fun c => c.2.isSome) := by
  induction l generalizing acc with
  | nil => simp
  | cons c l ih =>
      have hstep : (reportStep acc c).2 = (acc.2 || c.2.isSome) := by
        obtain ⟨name, err⟩ := c
        cases err <;> simp [reportStep]
      simp [List.foldl_cons, ih, hstep, Bool.or_assoc]

/-- Starting from a non-empty builder, the fold is the `go` loop of
`String.intercalate` with separator `"\n"` over the report lines. -/
lemma foldl_reportStep_go (l : List (String × Option String)) :
    ∀ (sb : String) (f : Bool), 0 < sb.length →
      (l.foldl reportStep (sb, f)).1 = String.intercalate.go sb "\n" (l.map checkLine) := by
  induction l with
  | nil => intro sb f h; simp [String.intercalate.go]
  | cons c l ih =>
      intro sb f h
      have hpos : 0 < (sb ++ ("\n" ++ checkLine c)).length := by
        simp only [String.length_append]
        omega
      rw [List.foldl_cons, reportStep_of_pos sb f c h, ih _ _ hpos]
      simp [List.map_cons, String.intercalate.go, String.append_assoc]

/-- Starting from a non-empty builder, the fold keeps the builder
non-empty. -/
lemma foldl_reportStep_pos (l : List (String × Option String)) :
    ∀ (sb : String) (f : Bool), 0 < sb.length → 0 < (l.foldl reportStep (sb, f)).1.length := by
  induction l with
  | nil => intro sb f h; simpa using h
  | cons c l ih =>
      intro sb f h
      rw [List.foldl_cons, reportStep_of_pos sb f c h]
      exact ih _ _ (by simp only [String.length_append]; omega)

/-- The failed flag of the readiness report holds exactly when some check
reported a non-nil error. -/
lemma checkReport_snd_eq (l : List (String × Option String)) :
    (checkReport l).2 = l.any (fun c => c.2.isSome) := by
  simp [checkReport, foldl_reportStep_snd]

/-- With at least one check registered, the readiness report body is the
newline-join (without trailing newline) of the report lines. -/
lemma checkReport_fst_cons (c : String × Option String) (l : List (String × Option String)) :
    (checkReport (c :: l)).1 = String.intercalate "\n" ((c :: l).map checkLine) := by
  have h0 : List.foldl reportStep ("", false) (c :: l) =
      List.foldl reportStep (checkLine c, c.2.isSome) l := by
    rw [List.foldl_cons, reportStep_of_empty]
    simp
  have hpos : 0 < (List.foldl reportStep (checkLine c, c.2.isSome) l).1.length :=
    foldl_reportStep_pos l _ _ (checkLine_pos c)
  have hgo := foldl_reportStep_go l (checkLine c) (c.2.isSome) (checkLine_pos c)
  simp only [checkReport, h0]
  rw [if_neg (by omega)]
  rw [hgo]
  rfl

/-- Claim C1: `ServeHTTP` resolves every request to exactly one destination
by testing, in this fixed order with first match winning: the readiness
path, the liveness path, the metrics path, the `"/debug/"` prefix, then the
application route table; when the readiness and liveness paths coincide, a
request to that path is handled with readiness semantics. -/
theorem dispatch_priority (o : Options) (checks : List (String × Option String))
    (p : String) (st : Int) :
    (serveHTTP o checks p st).handledBy = dispatch o p ∧
    (dispatch o p = HandledBy.readiness ↔ p = o.readinessPath) ∧
    (dispatch o p = HandledBy.liveness ↔ p ≠ o.readinessPath ∧ p = o.livenessPath) ∧
    (dispatch o p = HandledBy.metrics ↔
      p ≠ o.readinessPath ∧ p ≠ o.livenessPath ∧ p = o.metricsPath) ∧
    (dispatch o p = HandledBy.profiling ↔
      p ≠ o.readinessPath ∧ p ≠ o.livenessPath ∧ p ≠ o.metricsPath ∧
        p.startsWith "/debug/" = true) ∧
    (dispatch o p = HandledBy.application ↔
      p ≠ o.readinessPath ∧ p ≠ o.livenessPath ∧ p ≠ o.metricsPath ∧
        ¬ p.startsWith "/debug/" = true) ∧
    (o.readinessPath = o.livenessPath → p = o.livenessPath →
      dispatch o p = HandledBy.readiness ∧ (serveHTTP o checks p st).checkInvoked = true) := by
  refine ⟨?_, ?_, ?_, ?_, ?_, ?_, ?_⟩
  · unfold serveHTTP dispatch
    split_ifs <;> rfl
  · unfold dispatch; split_ifs <;> simp_all
  · unfold dispatch; split_ifs <;> simp_all
  · unfold dispatch; split_ifs <;> simp_all
  · unfold dispatch; split_ifs <;> simp_all
  · unfold dispatch; split_ifs <;> simp_all
  · intro hc hp
    have hr : p = o.readinessPath := by rw [hc]; exact hp
    constructor
    · unfold dispatch; rw [if_pos hr]
    · unfold serveHTTP; rw [if_pos hr]; split_ifs <;> rfl

/-- Witness for C1 at concrete inputs: with the readiness and liveness paths
both `"/healthz"`, a request to `"/healthz"` is dispatched to readiness and
invokes the checks. -/
theorem dispatch_priority_witness :
    dispatch collideOpts "/healthz" = HandledBy.readiness ∧
      (serveHTTP collideOpts [] "/healthz" 0).checkInvoked = true :=
  (dispatch_priority collideOpts [] "/healthz" 0).2.2.2.2.2.2 rfl rfl

/-- Claim C2: on the readiness path, `ServeHTTP` responds 500 and bumps the
failure counter by one (an `AddInt64`, i.e. `wrap64 (st + 1)`, which is
`st + 1` whenever no 64-bit overflow occurs) exactly when some check
reported a non-nil error, and responds 200 and stores `0` into the counter
unconditionally when every check reported nil; the status is 500 iff some
check failed. -/
theorem readiness_status_and_counter (o : Options) (checks : List (String × Option String))
    (p : String) (st : Int) (hp : p = o.readinessPath) :
    ((∃ c ∈ checks, c.2 ≠ none) →
      (serveHTTP o checks p st).response = some (respondInternal (checkReport checks).1 500) ∧
      (serveHTTP o checks p st).readinessFailed = wrap64 (st + 1)) ∧
    ((∀ c ∈ checks, c.2 = none) →
      (serveHTTP o checks p st).response = some (respondInternal (checkReport checks).1 200) ∧
      (serveHTTP o checks p st).readinessFailed = 0) ∧
    ((serveHTTP o checks p st).response.map Response.status = some 500 ↔
      ∃ c ∈ checks, c.2 ≠ none) ∧
    ((∃ c ∈ checks, c.2 ≠ none) ∧ -(2 ^ 63) ≤ st ∧ st < 2 ^ 63 - 1 →
      (serveHTTP o checks p st).readinessFailed = st + 1) := by
  subst hp
  have hflag : (checkReport checks).2 = true ↔ ∃ c ∈ checks, c.2 ≠ none := by
    rw [checkReport_snd_eq]
    simp [List.any_eq_true, Option.isSome_iff_ne_none]
  refine ⟨?_, ?_, ?_, ?_⟩
  · intro hex
    have h2 : (checkReport checks).2 = true := hflag.mpr hex
    simp [serveHTTP, h2]
  · intro hall
    have h2 : (checkReport checks).2 = false := by
      rw [checkReport_snd_eq]
      simp only [List.any_eq_false]
      intro c hc
      simp [hall c hc]
    simp [serveHTTP, h2]
  · constructor
    · intro hmap
      by_contra hno
      have h2 : (checkReport checks).2 = false := by
        cases hb : (checkReport checks).2 with
        | false => rfl
        | true => exact absurd (hflag.mp hb) hno
      simp [serveHTTP, h2, respondInternal] at hmap
    · intro hex
      have h2 : (checkReport checks).2 = true := hflag.mpr hex
      simp [serveHTTP, h2, respondInternal]
  · rintro ⟨hex, hlo, hhi⟩
    have h2 : (checkReport checks).2 = true := hflag.mpr hex
    simp only [serveHTTP, if_pos rfl, h2, if_pos]
    unfold wrap64
    omega

/-- Witness for C2 at concrete inputs: one failing check bumps the counter
from 0 to 1 with status 500. -/
theorem readiness_status_and_counter_witness :
    (serveHTTP sampleOpts failChecks "/readiness" 0).response =
        some (respondInternal (checkReport failChecks).1 500) ∧
      (serveHTTP sampleOpts failChecks "/readiness" 0).readinessFailed = 0 + 1 :=
  ⟨((readiness_status_and_counter sampleOpts failChecks "/readiness" 0 rfl).1
      (by decide)).1,
    (readiness_status_and_counter sampleOpts failChecks "/readiness" 0 rfl).2.2.2
      ⟨by decide, by decide, by decide⟩⟩

/-- Claim C3: on the liveness path, `ServeHTTP` responds 500 `"CASCADED"`
iff `readinessCascade > 0` and the failure counter strictly exceeds it,
and 200 `"OK"` otherwise; with `readinessCascade = 2`, two consecutive
failing readiness evaluations still give 200 `"OK"` on liveness, and a
third gives 500 `"CASCADED"`. -/
theorem liveness_cascade_rule (o : Options) (checks : List (String × Option String))
    (p : String) (st : Int) (hp : p = o.livenessPath) (hr : p ≠ o.readinessPath) :
    ((serveHTTP o checks p st).response =
      if o.readinessCascade > 0 ∧ st > o.readinessCascade then
        some (respondInternal "CASCADED" 500)
      else some (respondInternal "OK" 200)) ∧
    ((serveHTTP o checks p st).response = some (respondInternal "CASCADED" 500) ↔
      o.readinessCascade > 0 ∧ st > o.readinessCascade) ∧
    iterReadiness sampleOpts failChecks 0 2 = 2 ∧
    (serveHTTP sampleOpts failChecks "/liveness" (iterReadiness sampleOpts failChecks 0 2)).response =
      some (respondInternal "OK" 200) ∧
    iterReadiness sampleOpts failChecks 0 3 = 3 ∧
    (serveHTTP sampleOpts failChecks "/liveness" (iterReadiness sampleOpts failChecks 0 3)).response =
      some (respondInternal "CASCADED" 500) := by
  subst hp
  refine ⟨?_, ?_, by decide, by decide, by decide, by decide⟩
  · unfold serveHTTP
    rw [if_neg hr, if_pos rfl]
    split_ifs <;> rfl
  · unfold serveHTTP
    rw [if_neg hr, if_pos rfl]
    split_ifs with hcond
    · simp [hcond]
    · simp [respondInternal, hcond]

/-- Witness for C3 at concrete inputs: with `readinessCascade = 2` and the
counter at 3, the liveness response is `"CASCADED"` with status 500. -/
theorem liveness_cascade_rule_witness :
    (serveHTTP sampleOpts failChecks "/liveness" 3).response =
      some (respondInternal "CASCADED" 500) :=
  ((liveness_cascade_rule sampleOpts failChecks "/liveness" 3 rfl (by decide)).2.1).mpr
    (by decide)

/-- Claim C6: the readiness body is the newline-join, without a trailing
newline, of one `"<name>: OK"` or `"<name>: <error>"` line per check, and
the literal `"OK"` when no check is registered; with checks `alpha` (nil)
and `beta` (error `"db: timeout"`), the body is exactly
`"alpha: OK\nbeta: db: timeout"` with status 500. -/
theorem readiness_body_report (checks : List (String × Option String)) :
    (checks = [] → checkReport checks = ("OK", false)) ∧
    (checks ≠ [] →
      (checkReport checks).1 = String.intercalate "\n" (checks.map checkLine)) ∧
    (serveHTTP sampleOpts [("alpha", none), ("beta", some "db: timeout")] "/readiness" 0).response =
      some (respondInternal "alpha: OK\nbeta: db: timeout" 500) := by
  refine ⟨?_, ?_, by decide⟩
  · rintro rfl
    rfl
  · intro hne
    match checks, hne with
    | c :: l, _ => exact checkReport_fst_cons c l

/-- Witness for C6 at concrete inputs: a single passing check produces the
single line `"a: OK"`, which is its own newline-join. -/
theorem readiness_body_report_witness :
    (checkReport [("a", (none : Option String))]).1 =
      String.intercalate "\n" ([("a", (none : Option String))].map checkLine) :=
  (readiness_body_report [("a", none)]).2.1 (by decide)

/-- Claim C8: handling a request dispatched to the liveness path invokes no
health check and leaves the failure counter unchanged; the result is a pure
read, independent of the registered checks. -/
theorem liveness_pure_read (o : Options) (checks checks2 : List (String × Option String))
    (p : String) (st : Int) (hp : p = o.livenessPath) (hr : p ≠ o.readinessPath) :
    (serveHTTP o checks p st).readinessFailed = st ∧
    (serveHTTP o checks p st).checkInvoked = false ∧
    serveHTTP o checks p st = serveHTTP o checks2 p st := by
  subst hp
  unfold serveHTTP
  rw [if_neg hr, if_neg hr, if_pos rfl]
  split_ifs <;> simp

/-- Witness for C8 at concrete inputs: a liveness request with a failing
check registered leaves the counter at 7 and skips the checks. -/
theorem liveness_pure_read_witness :
    (serveHTTP sampleOpts failChecks "/liveness" 7).readinessFailed = 7 ∧
      (serveHTTP sampleOpts failChecks "/liveness" 7).checkInvoked = false ∧
      serveHTTP sampleOpts failChecks "/liveness" 7 = serveHTTP sampleOpts [] "/liveness" 7 :=
  liveness_pure_read sampleOpts failChecks [] "/liveness" 7 rfl (by decide)

/-- After one all-pass readiness evaluation the failure counter is stored
to zero, whatever its previous value. -/
lemma serveHTTP_allpass_counter (o : Options) (checks : List (String × Option String))
    (st : Int) (hall : ∀ c ∈ checks, c.2 = none) :
    (serveHTTP o checks o.readinessPath st).readinessFailed = 0 := by
  have h2 : (checkReport checks).2 = false := by
    rw [checkReport_snd_eq]
    simp only [List.any_eq_false]
    intro c hc
    simp [hall c hc]
  simp [serveHTTP, h2]

/-- Claim C9: for every `N ≥ 1` and every starting counter value, `N`
consecutive all-pass readiness evaluations leave the failure counter at
exactly 0, independent of `N`. -/
theorem readiness_reset_idempotent (o : Options) (checks : List (String × Option String))
    (st : Int) (N : Nat) (hall : ∀ c ∈ checks, c.2 = none) (hN : 1 ≤ N) :
    iterReadiness o checks st N = 0 := by
  obtain ⟨M, rfl⟩ : ∃ M, N = M + 1 := ⟨N - 1, by omega⟩
  induction M generalizing st with
  | zero =>
      simp only [iterReadiness]
      exact serveHTTP_allpass_counter o checks st hall
  | succ M ih =>
      rw [iterReadiness.eq_2]
      exact ih _ (by omega)

/-- Witness for C9 at concrete inputs: three all-pass evaluations starting
from counter value 41 end at 0. -/
theorem readiness_reset_idempotent_witness :
    iterReadiness sampleOpts [("a", (none : Option String))] 41 3 = 0 :=
  readiness_reset_idempotent sampleOpts [("a", none)] 41 3 (by decide) (by decide)

/-- Claim C4: with `concurrency > 0`, `New` builds the gate holding exactly
`concurrency` permits, an application-route dispatch acquires exactly one
permit and releases it exactly once on every exit path (normal return or
abnormal unwind of the handler), and along the whole dispatch the number of
permits in circulation (available plus held) is constantly the configured
concurrency, ending with all permits available. -/
theorem gate_permit_conservation (n : Int) (u : Bool) (hn : 0 < n) :
    newGate n = some n.toNat ∧
    (∀ k : Nat,
      (((appTrace true u).take k).foldl gateStep (n.toNat, 0)).1 +
        (((appTrace true u).take k).foldl gateStep (n.toNat, 0)).2 = n.toNat) ∧
    (appTrace true u).foldl gateStep (n.toNat, 0) = (n.toNat, 0) ∧
    (appTrace true u).count Ev.acquirePermit = 1 ∧
    (appTrace true u).count Ev.releasePermit = 1 := by
  have hpos : 1 ≤ n.toNat := by omega
  have htrace : appTrace true u = [Ev.acquirePermit, Ev.createContext, Ev.injectDeps,
      Ev.invokeHandler, Ev.performFinalize, Ev.releasePermit] := by
    cases u <;> rfl
  refine ⟨by simp [newGate, hn], ?_, ?_, ?_, ?_⟩
  · intro k
    rw [htrace]
    rcases k with _ | _ | _ | _ | _ | _ | k <;> simp [gateStep] <;> omega
  · rw [htrace]
    simp [gateStep]
    omega
  · rw [htrace]; decide
  · rw [htrace]; decide

/-- Witness for C4 at concrete inputs: concurrency 3, a handler that
unwinds abnormally. -/
theorem gate_permit_conservation_witness :
    newGate 3 = some (Int.toNat 3) ∧
      (appTrace true true).foldl gateStep (Int.toNat 3, 0) = (Int.toNat 3, 0) :=
  ⟨(gate_permit_conservation 3 true (by decide)).1,
    (gate_permit_conservation 3 true (by decide)).2.2.1⟩

/-- Claim C5: an application-route dispatch constructs the context, injects
dependencies, invokes the handler, and finalizes, in that order;
`Perform()` runs exactly once, on normal return and on abnormal unwind
alike, and it always runs before the gate permit is released; the unwind
itself propagates past the dispatcher. -/
theorem context_lifecycle_order (u : Bool) :
    appTrace true u = [Ev.acquirePermit, Ev.createContext, Ev.injectDeps,
      Ev.invokeHandler, Ev.performFinalize, Ev.releasePermit] ∧
    appTrace false u = [Ev.createContext, Ev.injectDeps, Ev.invokeHandler,
      Ev.performFinalize] ∧
    (appTrace true u).count Ev.performFinalize = 1 ∧
    (appTrace false u).count Ev.performFinalize = 1 ∧
    (runProg (serveApp true u)).2 = u ∧
    (runProg (serveApp false u)).2 = u := by
  cases u <;> exact ⟨rfl, rfl, by decide, by decide, rfl, rfl⟩

/-- Claim C7: requests resolved to the readiness, liveness, or metrics path
or to the `"/debug/"` prefix never touch the admission gate: their trace
holds no gate event and leaves any gate state unchanged. -/
theorem reserved_paths_bypass_gate (o : Options) (g u : Bool) (p : String)
    (h : p = o.readinessPath ∨ p = o.livenessPath ∨ p = o.metricsPath ∨
      p.startsWith "/debug/" = true) :
    serveTrace o g p u = [] ∧
    (∀ gs : Nat × Nat, (serveTrace o g p u).foldl gateStep gs = gs) ∧
    (serveTrace o g p u).count Ev.acquirePermit = 0 ∧
    (serveTrace o g p u).count Ev.releasePermit = 0 := by
  have hd : dispatch o p ≠ HandledBy.application := by
    unfold dispatch
    split_ifs with h1 h2 h3 h4 <;> simp_all
  have he : serveTrace o g p u = [] := by
    unfold serveTrace
    rw [if_neg hd]
  exact ⟨he, fun gs => by rw [he]; rfl, by rw [he]; rfl, by rw [he]; rfl⟩

/-- Witness for C7 at concrete inputs: a metrics request with the gate
enabled produces no gate events and leaves the state `(5, 2)` unchanged. -/
theorem reserved_paths_bypass_gate_witness :
    serveTrace sampleOpts true "/metrics" false = [] ∧
      (serveTrace sampleOpts true "/metrics" false).foldl gateStep (5, 2) = (5, 2) :=
  ⟨(reserved_paths_bypass_gate sampleOpts true false "/metrics"
      (Or.inr (Or.inr (Or.inl rfl)))).1,
    (reserved_paths_bypass_gate sampleOpts true false "/metrics"
      (Or.inr (Or.inr (Or.inl rfl)))).2.1 (5, 2)⟩

/-- Claim C10: for every configured concurrency value at or below zero
(negative values included), `New` creates no gate channel at all, and the
application-route dispatch runs with no permit acquisition or release,
leaving any gate state unchanged — exactly the documented disabled case. -/
theorem gate_disabled_nonpositive (c : Int) (u : Bool) (hc : c ≤ 0) :
    newGate c = none ∧
    appTrace ((newGate c).isSome) u = [Ev.createContext, Ev.injectDeps,
      Ev.invokeHandler, Ev.performFinalize] ∧
    (appTrace ((newGate c).isSome) u).count Ev.acquirePermit = 0 ∧
    (appTrace ((newGate c).isSome) u).count Ev.releasePermit = 0 ∧
    (∀ gs : Nat × Nat, (appTrace ((newGate c).isSome) u).foldl gateStep gs = gs) := by
  have hg : newGate c = none := by
    unfold newGate
    rw [if_neg (by omega)]
  rw [hg]
  refine ⟨rfl, ?_, ?_, ?_, ?_⟩
  · cases u <;> rfl
  · cases u <;> decide
  · cases u <;> decide
  · intro gs
    cases u <;> simp [appTrace, serveApp, handlerBody, runProg, gateStep]

/-- Witness for C10 at concrete inputs: concurrency -5 creates no gate and
the dispatch trace leaves the state `(0, 0)` unchanged. -/
theorem gate_disabled_nonpositive_witness :
    newGate (-5) = none ∧
      (appTrace ((newGate (-5)).isSome) false).foldl gateStep (0, 0) = (0, 0) :=
  ⟨(gate_disabled_nonpositive (-5) false (by decide)).1,
    (gate_disabled_nonpositive (-5) false (by decide)).2.2.2.2 (0, 0)⟩
